import Mathlib

set_option linter.unusedVariables false
set_option linter.unnecessarySeqFocus false

/-!
Shallow embedding of the emoji-explainer backend (Python/Prisma services) for
checking its natural-language specification.

Modelling conventions:
* The Prisma-backed tables are Lean lists of records; `create` on the `Emoji`
  table enforces the unique constraint on `character` by failing (like the
  database driver raising a unique-key violation) when a record with the same
  character already exists.
* An outbound HTTP call is modelled by an `HttpOutcome` value passed in as an
  argument: either a response (status code, raw body text, JSON object as an
  association list of string fields) or a raised transport error
  (`httpx.RequestError`).
* Each service returns a `ResolveOutcome`: the result (`Except` for Python
  functions that can raise; the raised exception is the `Except.error` text),
  the emoji store after the call, and the number of provider calls made.
* Concurrency: the `concurrent` argument lists Emoji records inserted by other
  racing resolutions during this call's provider round-trip, so the store seen
  by this call's `create` step is `db ++ concurrent`.  A solo (sequential) run
  is `concurrent = []`.
* Exception rendering: Python formats exception objects into the message
  strings; the model keeps the fixed prefixes from the source and renders the
  exception payload as a plain tag (such as "UniqueViolationError").
-/

/-- A stored Emoji record: `model Emoji { id, character (unique), meaning }`. -/
structure Emoji where
  id : Nat
  character : String
  meaning : String
deriving DecidableEq, Repr

/-- `prisma.models.Emoji.prisma().find_unique(where={"character": c})`. -/
def Emoji.findUnique (db : List Emoji) (c : String) : Option Emoji :=
  db.find? (fun e => e.character == c)

/-- `prisma.models.Emoji.prisma().create(data={"character": c, "meaning": m})`:
fails with a unique-key violation when a record with character `c` already
exists, otherwise appends a fresh record (autoincrement id). -/
def Emoji.create (db : List Emoji) (c m : String) :
    Except String (Emoji × List Emoji) :=
  match db.find? (fun e => e.character == c) with
  | some _ => Except.error "UniqueViolationError"
  | none =>
    let e : Emoji := { id := db.length + 1, character := c, meaning := m }
    Except.ok (e, db ++ [e])

/-- Outcome of an outbound HTTP request: a response (status code, raw body
text, JSON object fields) or a raised `httpx.RequestError` (url, message). -/
inductive HttpOutcome where
  | response (status : Nat) (text : String) (payload : List (String × String))
  | raised (url : String) (msg : String)
deriving DecidableEq, Repr

/-- `data[k]` / `data.get(k)` on a parsed JSON object. -/
def lookupField (payload : List (String × String)) (k : String) : Option String :=
  (payload.find? (fun p => p.1 == k)).map (fun p => p.2)

/-- What a service call produced: the returned value (or the raised
exception's text), the emoji store afterwards, and how many provider calls
were made. -/
structure ResolveOutcome (α : Type) where
  result : Except String α
  store : List Emoji
  providerCalls : Nat
deriving Repr

/-- Response model of `fetchEmojiMeaning_service.py`. -/
structure EmojiExplainerResponse where
  emoji : String
  explanation : String
deriving DecidableEq, Repr

/-- Response model of `interpretEmoji_service.py`. -/
structure EmojiInterpretationResponse where
  meaning : String
deriving DecidableEq, Repr

/-- Response model of `explainEmoji_service.py`. -/
structure EmojiExplainResponse where
  meaning : String
  error : Option String
deriving DecidableEq, Repr

/-- `fetchEmojiMeaning(emoji)` from `fetchEmojiMeaning_service.py`:
read-through lookup by character; on miss, GET the provider,
`raise_for_status` (non-2xx raises `HTTPStatusError`), read
`result_data["explanation"]` (missing key raises `KeyError`, caught by the
generic handler), create the record, return the created meaning.  Every
caught exception is re-raised as a `ValueError` with the source's message
prefix. -/
def fetchEmojiMeaning (emoji : String) (outcome : HttpOutcome)
    (db concurrent : List Emoji) : ResolveOutcome EmojiExplainerResponse :=
  match Emoji.findUnique db emoji with
  | some stored =>
    { result := Except.ok { emoji := emoji, explanation := stored.meaning }
      store := db, providerCalls := 0 }
  | none =>
    let db1 := db ++ concurrent
    match outcome with
    | HttpOutcome.raised url msg =>
      { result := Except.error ("Network Error: " ++ url ++ " - " ++ msg)
        store := db1, providerCalls := 1 }
    | HttpOutcome.response status text payload =>
      if 200 ≤ status ∧ status < 300 then
        match lookupField payload "explanation" with
        | none =>
          { result := Except.error "An error occurred: KeyError explanation"
            store := db1, providerCalls := 1 }
        | some meaning =>
          match Emoji.create db1 emoji meaning with
          | Except.ok (e, db2) =>
            { result := Except.ok { emoji := emoji, explanation := e.meaning }
              store := db2, providerCalls := 1 }
          | Except.error err =>
            { result := Except.error ("An error occurred: " ++ err)
              store := db1, providerCalls := 1 }
      else
        { result :=
            Except.error ("HTTP Error occurred: " ++ toString status ++ " - " ++ text)
          store := db1, providerCalls := 1 }

/-- `interpretEmoji(emoji)` from `interpretEmoji_service.py`: POST the
provider with no local-store read and no try/except around the request (a
transport error propagates).  On status 200, take
`data.get("meaning", "No interpretation found.")` and try to create the
record; if the create raises, re-read by character and prefer the stored
meaning.  On any other status return the fixed failure message as a normal
response. -/
def interpretEmoji (emoji : String) (outcome : HttpOutcome)
    (db concurrent : List Emoji) : ResolveOutcome EmojiInterpretationResponse :=
  let db1 := db ++ concurrent
  match outcome with
  | HttpOutcome.raised url msg =>
    { result := Except.error ("RequestError: " ++ url ++ " - " ++ msg)
      store := db1, providerCalls := 1 }
  | HttpOutcome.response status _text payload =>
    if status == 200 then
      let meaning := (lookupField payload "meaning").getD "No interpretation found."
      match Emoji.create db1 emoji meaning with
      | Except.ok (_e, db2) =>
        { result := Except.ok { meaning := meaning }
          store := db2, providerCalls := 1 }
      | Except.error _ =>
        match Emoji.findUnique db1 emoji with
        | some entry =>
          { result := Except.ok { meaning := entry.meaning }
            store := db1, providerCalls := 1 }
        | none =>
          { result := Except.ok { meaning := meaning }
            store := db1, providerCalls := 1 }
    else
      { result := Except.ok { meaning := "Failed to interpret the emoji." }
        store := db1, providerCalls := 1 }

/-- `explainEmoji(emoji_character)` from `explainEmoji_service.py`: POST the
provider, `raise_for_status`, and answer from the payload's `meaning` field.
The service performs no database operation at all (it does not even import
the ORM), so the store passes through untouched; every exception is caught
and turned into an error field, so the call never raises. -/
def explainEmoji (emoji_character : String) (outcome : HttpOutcome)
    (db concurrent : List Emoji) : ResolveOutcome EmojiExplainResponse :=
  let db1 := db ++ concurrent
  match outcome with
  | HttpOutcome.raised _url _msg =>
    { result := Except.ok { meaning := "", error := some "Failed to connect to the GROQ server." }
      store := db1, providerCalls := 1 }
  | HttpOutcome.response status _text payload =>
    if 200 ≤ status ∧ status < 300 then
      match lookupField payload "meaning" with
      | some m =>
        { result := Except.ok { meaning := m, error := none }
          store := db1, providerCalls := 1 }
      | none =>
        { result := Except.ok { meaning := "", error := some "Meaning not found for the provided emoji." }
          store := db1, providerCalls := 1 }
    else
      { result := Except.ok { meaning := "", error := some "Invalid response from the server." }
        store := db1, providerCalls := 1 }

/-- `enum Role { ADMIN USER GUEST }` from the Prisma schema. -/
inductive Role where
  | ADMIN
  | USER
  | GUEST
deriving DecidableEq, Repr

/-- `role.name` as Python's `Enum.name`. -/
def Role.enumName : Role → String
  | Role.ADMIN => "ADMIN"
  | Role.USER => "USER"
  | Role.GUEST => "GUEST"

/-- A stored User record. -/
structure User where
  id : Nat
  email : String
  password : String
  role : Role
  name : String
deriving DecidableEq, Repr

/-- A stored Feedback record.  `createdAt` is a timestamp (larger = newer). -/
structure Feedback where
  id : Nat
  userId : Nat
  emojiId : Nat
  content : String
  createdAt : Nat
  reviewed : Bool
deriving DecidableEq, Repr

/-- `order={"createdAt": "desc"}`: newest-first comparison on timestamps. -/
def newestFirst (a b : Feedback) : Bool :=
  b.createdAt ≤ a.createdAt

/-- `find_many(..., order={"createdAt": "desc"})` applied to the whole table. -/
def sortNewestFirst (l : List Feedback) : List Feedback :=
  l.mergeSort newestFirst

/-- `record.user.email` under `include={"user": True}`: the email of the user
row joined by `userId`.  A dangling `userId` has no joined row (the source
would crash there); the model returns `""` and the theorems assume
referential integrity. -/
def userEmailOf (users : List User) (uid : Nat) : String :=
  match users.find? (fun u => u.id == uid) with
  | some u => u.email
  | none => ""

/-- Item model of `fetchFeedback_service.py`. -/
structure FeedbackDetail where
  id : Nat
  content : String
  userEmail : String
  createdAt : Nat
deriving DecidableEq, Repr

/-- Response model of `fetchFeedback_service.py`. -/
structure GetFeedbackResponse where
  feedbacks : List FeedbackDetail
  totalPages : Nat
  currentPage : Nat
deriving DecidableEq, Repr

/-- `fetchFeedback(page, limit)` from `fetchFeedback_service.py`:
`skip = (page-1)*limit`; fetch the page of the newest-first ordering with the
user row joined in; `total_pages = (count + limit - 1) // limit`. -/
def fetchFeedback (users : List User) (feedbacks : List Feedback)
    (page limit : Nat) : GetFeedbackResponse :=
  let skip := (page - 1) * limit
  let feedback_records := ((sortNewestFirst feedbacks).drop skip).take limit
  let total_feedback_count := feedbacks.length
  let total_pages := (total_feedback_count + limit - 1) / limit
  { feedbacks := feedback_records.map (fun record =>
      { id := record.id, content := record.content
        userEmail := userEmailOf users record.userId
        createdAt := record.createdAt })
    totalPages := total_pages
    currentPage := page }

/-- Response model of `deleteFeedback_service.py`. -/
structure DeleteFeedbackResponse where
  success : Bool
  message : String
deriving DecidableEq, Repr

/-- `deleteFeedback(feedbackId)` from `deleteFeedback_service.py`: find by id
(missing → failure), refuse when `reviewed`, otherwise delete by id and
report success (the server-error branch fires only if the delete returns
nothing). -/
def deleteFeedback (feedbacks : List Feedback) (feedbackId : Nat) :
    DeleteFeedbackResponse × List Feedback :=
  match feedbacks.find? (fun f => f.id == feedbackId) with
  | none =>
    ({ success := false
       message := "No feedback found with ID " ++ toString feedbackId }, feedbacks)
  | some feedback =>
    if feedback.reviewed then
      ({ success := false
         message := "Feedback " ++ toString feedbackId ++
           " has been reviewed and cannot be deleted" }, feedbacks)
    else
      let delete_result := feedbacks.find? (fun f => f.id == feedbackId)
      let feedbacks1 := feedbacks.filter (fun f => !(f.id == feedbackId))
      match delete_result with
      | some _ =>
        ({ success := true
           message := "Feedback " ++ toString feedbackId ++ " successfully deleted." },
         feedbacks1)
      | none =>
        ({ success := false
           message := "Deletion failed due to a server error." }, feedbacks)

/-- Response model of `deleteUser_service.py`. -/
structure DeleteUserResponse where
  message : String
  status : Nat
deriving DecidableEq, Repr

/-- `deleteUser(userId)` from `deleteUser_service.py`: find the user by id
(missing → 404), refuse with 403 when the looked-up user's role is not
ADMIN, otherwise delete that user and return 200. -/
def deleteUser (users : List User) (userId : Nat) :
    DeleteUserResponse × List User :=
  match users.find? (fun u => u.id == userId) with
  | none => ({ message := "User not found.", status := 404 }, users)
  | some user =>
    if user.role ≠ Role.ADMIN then
      ({ message := "Unauthorized access. Only admin users can delete accounts."
         status := 403 }, users)
    else
      ({ message := "User successfully deleted.", status := 200 },
       users.filter (fun u => !(u.id == userId)))

/-- `UserDetails` from `userLogin_service.py` (non-sensitive user data). -/
structure UserDetails where
  email : String
  role : Role
deriving DecidableEq, Repr

/-- A signed token as produced by `jwt.encode(payload, key, "HS256")`: the
payload fields and the signing key. -/
structure SignedToken where
  user_id : Nat
  role : String
  key : String
deriving DecidableEq, Repr

/-- `jwt.encode({"user_id": id, "role": roleName}, key, algorithm="HS256")`. -/
def jwtEncode (user_id : Nat) (roleName : String) (key : String) : SignedToken :=
  { user_id := user_id, role := roleName, key := key }

/-- Decoding a signed token recovers its payload `{user_id, role}`. -/
def jwtDecode (t : SignedToken) : Nat × String :=
  (t.user_id, t.role)

/-- Response model of `userLogin_service.py`. -/
structure LoginResponse where
  jwt : SignedToken
  userDetails : UserDetails
deriving DecidableEq, Repr

/-- `userLogin(email, password)` from `userLogin_service.py`: find the first
user by email; if there is none or `bcrypt.verify(password, user.password)`
fails, raise `ValueError("Invalid email or password")`; otherwise sign
`{user_id, role}` with the fixed key and return it with the user details.
The bcrypt verifier is passed in as a function, as the model of
`passlib.hash.bcrypt.verify`. -/
def userLogin (verify : String → String → Bool) (users : List User)
    (email password : String) : Except String LoginResponse :=
  match users.find? (fun u => u.email == email) with
  | none => Except.error "Invalid email or password"
  | some user =>
    if !(verify password user.password) then
      Except.error "Invalid email or password"
    else
      Except.ok
        { jwt := jwtEncode user.id user.role.enumName "secret_key"
          userDetails := { email := user.email, role := user.role } }

/-- Response model of `checkApiStatus_service.py`. -/
structure GetApiStatusResponse where
  status_code : Nat
  message : String
deriving DecidableEq, Repr

/-- Outcome of the GET to the provider's status URL: a response with a status
code, or a raised exception with its text. -/
inductive StatusOutcome where
  | response (status : Nat)
  | raised (msg : String)
deriving DecidableEq, Repr

/-- `checkApiStatus(request)` from `checkApiStatus_service.py`: GET the
provider's status URL; status 200 maps to the operational message, any other
status to the degraded message with the provider's code; a raised exception
is caught and returned as a 503 response carrying the exception text, so the
function always returns and never propagates an exception. -/
def checkApiStatus (outcome : StatusOutcome) : GetApiStatusResponse :=
  match outcome with
  | StatusOutcome.response status_code =>
    if status_code == 200 then
      { status_code := status_code, message := "API is operational." }
    else
      { status_code := status_code, message := "API is experiencing issues." }
  | StatusOutcome.raised e =>
    { status_code := 503, message := e }

/-- The empty request model of `getHistory_service.py` (`HistoryRequest` has
no fields; user identity is NOT taken from it). -/
structure HistoryRequest where
deriving DecidableEq, Repr

/-- Item model of `getHistory_service.py`. -/
structure EmojiDetails where
  emoji : String
  meaning : String
deriving DecidableEq, Repr

/-- Response model of `getHistory_service.py`. -/
structure HistoryResponse where
  recent_emojis : List EmojiDetails
deriving DecidableEq, Repr

/-- `f.emoji` under `include={"emoji": True}`: the Emoji row joined by
`emojiId`, shaped as the response item.  A dangling `emojiId` has no joined
row (the source would crash there); the model returns empty strings and the
theorems assume referential integrity. -/
def joinedEmoji (emojis : List Emoji) (eid : Nat) : EmojiDetails :=
  match emojis.find? (fun e => e.id == eid) with
  | some e => { emoji := e.character, meaning := e.meaning }
  | none => { emoji := "", meaning := "" }

/-- `getHistory(request)` from `getHistory_service.py`: `user_id = 1` is
hardcoded; fetch that user's Feedback newest-first with the Emoji row joined
in, and shape each row as `{emoji, meaning}`.  The request argument is never
read. -/
def getHistory (emojis : List Emoji) (feedbacks : List Feedback)
    (request : HistoryRequest) : HistoryResponse :=
  let user_id := 1
  let fs := sortNewestFirst (feedbacks.filter (fun f => f.userId == user_id))
  { recent_emojis := fs.map (fun f => joinedEmoji emojis f.emojiId) }

/-- C2: for every emoji character that already has a stored Emoji record,
`fetchEmojiMeaning` returns the stored meaning immediately, leaves the store
unchanged, and makes zero provider calls — the outcome of the (never
performed) provider call does not influence the result at all. -/
theorem fetchEmojiMeaning_cache_hit (emoji : String) (outcome : HttpOutcome)
    (db concurrent : List Emoji) (stored : Emoji)
    (h : Emoji.findUnique db emoji = some stored) :
    fetchEmojiMeaning emoji outcome db concurrent =
      { result := Except.ok { emoji := emoji, explanation := stored.meaning }
        store := db, providerCalls := 0 } := by
  unfold fetchEmojiMeaning
  rw [h]

/-- Witness for C2 at a concrete store and provider outcome. -/
theorem fetchEmojiMeaning_cache_hit_witness :
    fetchEmojiMeaning "e" (HttpOutcome.raised "u" "boom")
        [{ id := 1, character := "e", meaning := "m" }] [] =
      { result := Except.ok { emoji := "e", explanation := "m" }
        store := [{ id := 1, character := "e", meaning := "m" }]
        providerCalls := 0 } :=
  fetchEmojiMeaning_cache_hit "e" (HttpOutcome.raised "u" "boom")
    [{ id := 1, character := "e", meaning := "m" }] []
    { id := 1, character := "e", meaning := "m" } rfl

/-- C6: deleting a feedback record whose `reviewed` flag is true fails with
the already-reviewed failure and leaves the whole table (hence the record)
unchanged; a deletion reports success only when the record exists with
`reviewed = false`. -/
theorem deleteFeedback_reviewed_guard (feedbacks : List Feedback)
    (feedbackId : Nat) :
    (∀ f, feedbacks.find? (fun g => g.id == feedbackId) = some f →
      f.reviewed = true →
      deleteFeedback feedbacks feedbackId =
        ({ success := false
           message := "Feedback " ++ toString feedbackId ++
             " has been reviewed and cannot be deleted" }, feedbacks)) ∧
    ((deleteFeedback feedbacks feedbackId).1.success = true →
      ∃ f, feedbacks.find? (fun g => g.id == feedbackId) = some f ∧
        f.reviewed = false) := by
  constructor
  · intro f hfind hrev
    unfold deleteFeedback
    rw [hfind]
    simp [hrev]
  · intro hsucc
    unfold deleteFeedback at hsucc
    cases hfind : feedbacks.find? (fun g => g.id == feedbackId) with
    | none => rw [hfind] at hsucc; simp at hsucc
    | some f =>
      rw [hfind] at hsucc
      cases hrev : f.reviewed with
      | false => exact ⟨f, rfl, hrev⟩
      | true => simp [hrev] at hsucc

/-- Witness for C6: deleting a reviewed feedback record fails and leaves the
table unchanged. -/
theorem deleteFeedback_reviewed_guard_witness :
    deleteFeedback [⟨7, 1, 1, "c", 5, true⟩] 7 =
      ({ success := false
         message := "Feedback 7 has been reviewed and cannot be deleted" },
       [⟨7, 1, 1, "c", 5, true⟩]) :=
  (deleteFeedback_reviewed_guard [⟨7, 1, 1, "c", 5, true⟩] 7).1
    ⟨7, 1, 1, "c", 5, true⟩ rfl rfl

/-- C7: `deleteUser` returns the 404 not-found response when no user has the
given id, returns the 403 unauthorized response and leaves the table
untouched when the looked-up user's role is not ADMIN, and deletes the user
with a 200 response exactly when the role check passes. -/
theorem deleteUser_requires_admin (users : List User) (userId : Nat) :
    (users.find? (fun u => u.id == userId) = none →
      deleteUser users userId =
        ({ message := "User not found.", status := 404 }, users)) ∧
    (∀ user, users.find? (fun u => u.id == userId) = some user →
      (user.role ≠ Role.ADMIN →
        deleteUser users userId =
          ({ message := "Unauthorized access. Only admin users can delete accounts."
             status := 403 }, users)) ∧
      (user.role = Role.ADMIN →
        deleteUser users userId =
          ({ message := "User successfully deleted.", status := 200 },
           users.filter (fun u => !(u.id == userId))))) := by
  refine ⟨fun hnone => ?_, fun user hfind => ⟨fun hrole => ?_, fun hrole => ?_⟩⟩
  · unfold deleteUser; rw [hnone]
  · unfold deleteUser; rw [hfind]; simp [hrole]
  · unfold deleteUser; rw [hfind]; simp [hrole]

/-- Witness for C7: deleting a non-admin user fails with 403 and the table is
unchanged. -/
theorem deleteUser_requires_admin_witness :
    deleteUser [⟨1, "a", "p", Role.USER, "A"⟩] 1 =
      ({ message := "Unauthorized access. Only admin users can delete accounts."
         status := 403 },
       [⟨1, "a", "p", Role.USER, "A"⟩]) :=
  ((deleteUser_requires_admin [⟨1, "a", "p", Role.USER, "A"⟩] 1).2
    ⟨1, "a", "p", Role.USER, "A"⟩ rfl).1 (by decide)

/-- C9: `checkApiStatus` answers with the operational message exactly when
the provider's status is 200, answers with the degraded message for every
other status, and converts a raised exception into a 503 response carrying
the exception text instead of propagating it (the function is total and
always returns a response). -/
theorem checkApiStatus_maps_status (s : Nat) (e : String) :
    ((checkApiStatus (StatusOutcome.response s)).message = "API is operational."
      ↔ s = 200) ∧
    (s ≠ 200 →
      checkApiStatus (StatusOutcome.response s) =
        { status_code := s, message := "API is experiencing issues." }) ∧
    checkApiStatus (StatusOutcome.raised e) = { status_code := 503, message := e } := by
  refine ⟨?_, fun hs => ?_, rfl⟩
  · by_cases hs : s = 200
    · subst hs; simp [checkApiStatus]
    · simp only [checkApiStatus, beq_iff_eq, if_neg hs]
      constructor
      · intro h; exact absurd h (by decide)
      · intro h; exact absurd h hs
  · simp [checkApiStatus, hs]

/-- Witness for C9: a 500 status from the provider maps to the degraded
message, and 200 maps to the operational message. -/
theorem checkApiStatus_maps_status_witness :
    checkApiStatus (StatusOutcome.response 500) =
      { status_code := 500, message := "API is experiencing issues." } ∧
    (checkApiStatus (StatusOutcome.response 200)).message = "API is operational." :=
  ⟨(checkApiStatus_maps_status 500 "x").2.1 (by decide),
   (checkApiStatus_maps_status 200 "x").1.mpr rfl⟩

/-- C8: login fails with the single invalid-credentials error both when no
user has the email and when the bcrypt check rejects the password (the same
failure value in both cases), and with correct credentials it returns a
token signed with the fixed key whose payload decodes to exactly the stored
user's id and role name, together with the user's email and role. -/
theorem userLogin_credentials (verify : String → String → Bool)
    (users : List User) (email password : String) :
    (users.find? (fun u => u.email == email) = none →
      userLogin verify users email password =
        Except.error "Invalid email or password") ∧
    (∀ user, users.find? (fun u => u.email == email) = some user →
      (verify password user.password = false →
        userLogin verify users email password =
          Except.error "Invalid email or password") ∧
      (verify password user.password = true →
        ∃ resp, userLogin verify users email password = Except.ok resp ∧
          jwtDecode resp.jwt = (user.id, user.role.enumName) ∧
          resp.jwt.key = "secret_key" ∧
          resp.userDetails.email = user.email ∧
          resp.userDetails.role = user.role)) := by
  refine ⟨fun hnone => ?_, fun user hfind => ⟨fun hbad => ?_, fun hok => ?_⟩⟩
  · unfold userLogin; rw [hnone]
  · unfold userLogin; rw [hfind]; simp [hbad]
  · refine ⟨{ jwt := jwtEncode user.id user.role.enumName "secret_key"
              userDetails := { email := user.email, role := user.role } },
      ?_, rfl, rfl, rfl, rfl⟩
    unfold userLogin; rw [hfind]; simp [hok]

/-- Witness for C8: with a one-user table and equality as the hash check, a
wrong password yields the invalid-credentials error and the right password
yields a token decoding to the stored id and role. -/
theorem userLogin_credentials_witness :
    userLogin (fun p h => p == h) [⟨1, "a", "pw", Role.USER, "A"⟩] "a" "bad" =
      Except.error "Invalid email or password" ∧
    ∃ resp,
      userLogin (fun p h => p == h) [⟨1, "a", "pw", Role.USER, "A"⟩] "a" "pw" =
        Except.ok resp ∧
      jwtDecode resp.jwt = (1, Role.enumName Role.USER) ∧
      resp.jwt.key = "secret_key" ∧
      resp.userDetails.email = "a" ∧
      resp.userDetails.role = Role.USER :=
  ⟨((userLogin_credentials (fun p h => p == h)
        [⟨1, "a", "pw", Role.USER, "A"⟩] "a" "bad").2
      ⟨1, "a", "pw", Role.USER, "A"⟩ rfl).1 rfl,
   ((userLogin_credentials (fun p h => p == h)
        [⟨1, "a", "pw", Role.USER, "A"⟩] "a" "pw").2
      ⟨1, "a", "pw", Role.USER, "A"⟩ rfl).2 rfl⟩

/-- Sorting newest-first is a permutation of the input table. -/
theorem sortNewestFirst_perm (l : List Feedback) : (sortNewestFirst l).Perm l :=
  List.mergeSort_perm l newestFirst

/-- Sorting newest-first yields a list pairwise ordered by descending
creation time. -/
theorem sortNewestFirst_pairwise (l : List Feedback) :
    (sortNewestFirst l).Pairwise (fun a b => b.createdAt ≤ a.createdAt) := by
  have h := @List.sorted_mergeSort Feedback newestFirst
    (fun a b c hab hbc => by
      simp only [newestFirst, decide_eq_true_eq] at *
      omega)
    (fun a b => by
      simp only [newestFirst, Bool.or_eq_true, decide_eq_true_eq]
      omega)
    l
  exact h.imp (fun hab => by
    simpa only [newestFirst, decide_eq_true_eq] using hab)

/-- C10: `getHistory` never reads its request (any two requests give the
same answer), and its result is exactly the Feedback records with the
hardcoded `userId = 1` — a permutation of that filtered table, ordered
newest-first — each mapped to the character and meaning of the Emoji record
joined by its `emojiId`. -/
theorem getHistory_hardcoded_user (emojis : List Emoji)
    (feedbacks : List Feedback) (request : HistoryRequest)
    (hint : ∀ f, f ∈ feedbacks → ∃ em, em ∈ emojis ∧ em.id = f.emojiId) :
    (sortNewestFirst (feedbacks.filter (fun f => f.userId == 1))).Perm
      (feedbacks.filter (fun f => f.userId == 1)) ∧
    (sortNewestFirst (feedbacks.filter (fun f => f.userId == 1))).Pairwise
      (fun a b => b.createdAt ≤ a.createdAt) ∧
    (getHistory emojis feedbacks request).recent_emojis =
      (sortNewestFirst (feedbacks.filter (fun f => f.userId == 1))).map
        (fun f => joinedEmoji emojis f.emojiId) ∧
    (∀ f, f ∈ sortNewestFirst (feedbacks.filter (fun f => f.userId == 1)) →
      f.userId = 1 ∧
      ∃ em, em ∈ emojis ∧ em.id = f.emojiId ∧
        joinedEmoji emojis f.emojiId =
          { emoji := em.character, meaning := em.meaning }) ∧
    (∀ request2 : HistoryRequest,
      getHistory emojis feedbacks request2 = getHistory emojis feedbacks request) := by
  refine ⟨sortNewestFirst_perm _, sortNewestFirst_pairwise _, rfl, ?_, fun r2 => rfl⟩
  intro f hf
  have hfilt : f ∈ feedbacks.filter (fun f => f.userId == 1) :=
    (sortNewestFirst_perm _).mem_iff.mp hf
  have hmemf := List.mem_filter.mp hfilt
  have huid : f.userId = 1 := by
    have := hmemf.2
    simpa using this
  refine ⟨huid, ?_⟩
  obtain ⟨em0, hem0, hid0⟩ := hint f hmemf.1
  have hsome : (emojis.find? (fun e => e.id == f.emojiId)).isSome :=
    List.find?_isSome.mpr ⟨em0, hem0, by simp [hid0]⟩
  obtain ⟨em1, hfind1⟩ := Option.isSome_iff_exists.mp hsome
  have hmem1 : em1 ∈ emojis := List.mem_of_find?_eq_some hfind1
  have hid1 : em1.id = f.emojiId := by
    have := List.find?_some hfind1
    simpa using this
  refine ⟨em1, hmem1, hid1, ?_⟩
  unfold joinedEmoji
  rw [hfind1]

/-- Witness for C10 at a one-row table for user 1 and its joined emoji. -/
theorem getHistory_hardcoded_user_witness :
    (getHistory [⟨1, "e", "m"⟩] [⟨1, 1, 1, "c", 5, false⟩] {}).recent_emojis =
      (sortNewestFirst
          ([⟨1, 1, 1, "c", 5, false⟩].filter (fun f => f.userId == 1))).map
        (fun f => joinedEmoji [⟨1, "e", "m"⟩] f.emojiId) :=
  (getHistory_hardcoded_user [⟨1, "e", "m"⟩] [⟨1, 1, 1, "c", 5, false⟩] {}
    (by decide)).2.2.1

/-- C5: for page `p ≥ 1` and page size `L ≥ 1`, `fetchFeedback` returns the
window of the full newest-first joined sequence that skips exactly
`(p-1)*L` entries and takes at most `L`; the returned page is ordered
newest-first; every returned row carries the data of a stored feedback
record together with its owning user's email; and `totalPages` is the
ceiling of `count / L`, characterized by
`count ≤ totalPages * L < count + L`. -/
theorem fetchFeedback_pagination (users : List User) (feedbacks : List Feedback)
    (page limit : Nat) (hp : 1 ≤ page) (hl : 1 ≤ limit)
    (hint : ∀ f, f ∈ feedbacks → ∃ u, u ∈ users ∧ u.id = f.userId) :
    (fetchFeedback users feedbacks page limit).feedbacks =
      (((sortNewestFirst feedbacks).map (fun record =>
          FeedbackDetail.mk record.id record.content
            (userEmailOf users record.userId) record.createdAt)).drop
        ((page - 1) * limit)).take limit ∧
    (fetchFeedback users feedbacks page limit).feedbacks.length ≤ limit ∧
    (fetchFeedback users feedbacks page limit).feedbacks.Pairwise
      (fun a b => b.createdAt ≤ a.createdAt) ∧
    (∀ d, d ∈ (fetchFeedback users feedbacks page limit).feedbacks →
      ∃ f, f ∈ feedbacks ∧ d.id = f.id ∧ d.content = f.content ∧
        d.createdAt = f.createdAt ∧
        ∃ u, u ∈ users ∧ u.id = f.userId ∧ d.userEmail = u.email) ∧
    feedbacks.length ≤ (fetchFeedback users feedbacks page limit).totalPages * limit ∧
    (fetchFeedback users feedbacks page limit).totalPages * limit <
      feedbacks.length + limit ∧
    (fetchFeedback users feedbacks page limit).currentPage = page := by
  have hwindow : (fetchFeedback users feedbacks page limit).feedbacks =
      (((sortNewestFirst feedbacks).map (fun record =>
          FeedbackDetail.mk record.id record.content
            (userEmailOf users record.userId) record.createdAt)).drop
        ((page - 1) * limit)).take limit := by
    simp [fetchFeedback, List.map_take, List.map_drop]
  have hsubl : ((((sortNewestFirst feedbacks).drop ((page - 1) * limit)).take limit)).Sublist
      (sortNewestFirst feedbacks) :=
    (List.take_sublist _ _).trans (List.drop_sublist _ _)
  refine ⟨hwindow, ?_, ?_, ?_, ?_, ?_, rfl⟩
  · rw [hwindow]
    exact (List.length_take_le _ _)
  · rw [hwindow]
    rw [← List.map_drop, ← List.map_take]
    refine List.pairwise_map.mpr ?_
    exact ((sortNewestFirst_pairwise feedbacks).sublist hsubl).imp (fun h => h)
  · intro d hd
    rw [hwindow] at hd
    rw [← List.map_drop, ← List.map_take] at hd
    obtain ⟨f, hfmem, hfd⟩ := List.mem_map.mp hd
    have hfsorted : f ∈ sortNewestFirst feedbacks := hsubl.mem hfmem
    have hffb : f ∈ feedbacks := (sortNewestFirst_perm feedbacks).mem_iff.mp hfsorted
    obtain ⟨u0, hu0, hid0⟩ := hint f hffb
    have hsome : (users.find? (fun u => u.id == f.userId)).isSome :=
      List.find?_isSome.mpr ⟨u0, hu0, by simp [hid0]⟩
    obtain ⟨u1, hfind1⟩ := Option.isSome_iff_exists.mp hsome
    have hmem1 : u1 ∈ users := List.mem_of_find?_eq_some hfind1
    have hid1 : u1.id = f.userId := by
      have := List.find?_some hfind1
      simpa using this
    refine ⟨f, hffb, ?_, ?_, ?_, u1, hmem1, hid1, ?_⟩ <;>
      rw [← hfd] <;> simp [userEmailOf, hfind1]
  · have hdm := Nat.div_add_mod (feedbacks.length + limit - 1) limit
    have hml : (feedbacks.length + limit - 1) % limit < limit :=
      Nat.mod_lt _ (by omega)
    have htp : (fetchFeedback users feedbacks page limit).totalPages =
        (feedbacks.length + limit - 1) / limit := rfl
    rw [htp, Nat.mul_comm]
    omega
  · have hdm := Nat.div_add_mod (feedbacks.length + limit - 1) limit
    have hml : (feedbacks.length + limit - 1) % limit < limit :=
      Nat.mod_lt _ (by omega)
    have htp : (fetchFeedback users feedbacks page limit).totalPages =
        (feedbacks.length + limit - 1) / limit := rfl
    rw [htp, Nat.mul_comm]
    omega

/-- Witness for C5: page 2 of size 1 over a two-row table returns the older
row with the owner's email, and totalPages is 2. -/
theorem fetchFeedback_pagination_witness :
    (fetchFeedback [⟨1, "a", "p", Role.USER, "A"⟩]
        [⟨1, 1, 1, "c1", 5, false⟩, ⟨2, 1, 1, "c2", 9, false⟩] 2 1).feedbacks =
      ((([⟨2, 1, 1, "c2", 9, false⟩, ⟨1, 1, 1, "c1", 5, false⟩] :
          List Feedback).map (fun record =>
            FeedbackDetail.mk record.id record.content
              (userEmailOf [⟨1, "a", "p", Role.USER, "A"⟩] record.userId)
              record.createdAt)).drop 1).take 1 ∧
    ([⟨1, 1, 1, "c1", 5, false⟩, ⟨2, 1, 1, "c2", 9, false⟩] : List Feedback).length ≤
      (fetchFeedback [⟨1, "a", "p", Role.USER, "A"⟩]
        [⟨1, 1, 1, "c1", 5, false⟩, ⟨2, 1, 1, "c2", 9, false⟩] 2 1).totalPages * 1 := by
  have h := fetchFeedback_pagination [⟨1, "a", "p", Role.USER, "A"⟩]
    [⟨1, 1, 1, "c1", 5, false⟩, ⟨2, 1, 1, "c2", 9, false⟩] 2 1
    (by decide) (by decide) (by decide)
  refine ⟨?_, h.2.2.2.2.1⟩
  have h1 := h.1
  have hs : sortNewestFirst [⟨1, 1, 1, "c1", 5, false⟩, ⟨2, 1, 1, "c2", 9, false⟩] =
      [⟨2, 1, 1, "c2", 9, false⟩, ⟨1, 1, 1, "c1", 5, false⟩] := by
    simp [sortNewestFirst, List.mergeSort, newestFirst]
  rw [hs] at h1
  exact h1

/-- Counterexample for C1: a run of `fetchEmojiMeaning` in which the provider
call succeeds but a concurrent resolution inserted the character first.  The
claim says no error surfaces and the caller receives the stored meaning;
instead `fetchEmojiMeaning` raises a `ValueError` (its generic exception
handler re-raises the unique-key violation) and the caller never sees the
stored meaning "cached". -/
theorem fetchEmojiMeaning_race_surfaces_error :
    fetchEmojiMeaning "e" (HttpOutcome.response 200 "" [("explanation", "grin")])
        [] [⟨1, "e", "cached"⟩] =
      { result := Except.error "An error occurred: UniqueViolationError"
        store := [⟨1, "e", "cached"⟩]
        providerCalls := 1 } ∧
    ∀ r, (fetchEmojiMeaning "e"
        (HttpOutcome.response 200 "" [("explanation", "grin")])
        [] [⟨1, "e", "cached"⟩]).result ≠ Except.ok r := by
  refine ⟨rfl, fun r h => ?_⟩
  rw [show (fetchEmojiMeaning "e"
      (HttpOutcome.response 200 "" [("explanation", "grin")])
      [] [⟨1, "e", "cached"⟩]).result =
      Except.error "An error occurred: UniqueViolationError" from rfl] at h
  exact Except.noConfusion h

/-- C1 amended: when the provider call succeeds but record creation fails
with a unique-key violation because a concurrent resolution already inserted
the character, the interpret variant surfaces no error — it re-reads the
existing record by character and returns that record's stored meaning, and
exactly one record with the character exists afterward — while the
fetch-meaning variant instead surfaces a `ValueError` to its caller (its
store is still left with exactly the one concurrently inserted record). -/
theorem emoji_create_race (emoji text m : String)
    (payload : List (String × String)) (db concurrent : List Emoji) (c : Emoji)
    (hmiss : Emoji.findUnique db emoji = none)
    (hfind : Emoji.findUnique (db ++ concurrent) emoji = some c)
    (huniq : ((db ++ concurrent).filter (fun e => e.character == emoji)).length = 1)
    (hfield : lookupField payload "explanation" = some m) :
    interpretEmoji emoji (HttpOutcome.response 200 text payload) db concurrent =
      { result := Except.ok { meaning := c.meaning }
        store := db ++ concurrent, providerCalls := 1 } ∧
    (((interpretEmoji emoji (HttpOutcome.response 200 text payload)
        db concurrent).store.filter (fun e => e.character == emoji)).length = 1) ∧
    fetchEmojiMeaning emoji (HttpOutcome.response 200 text payload) db concurrent =
      { result := Except.error "An error occurred: UniqueViolationError"
        store := db ++ concurrent, providerCalls := 1 } ∧
    (((fetchEmojiMeaning emoji (HttpOutcome.response 200 text payload)
        db concurrent).store.filter (fun e => e.character == emoji)).length = 1) := by
  have hcreate : ∀ mm, Emoji.create (db ++ concurrent) emoji mm =
      Except.error "UniqueViolationError" := by
    intro mm
    unfold Emoji.create
    unfold Emoji.findUnique at hfind
    rw [hfind]
  have hinterp : interpretEmoji emoji (HttpOutcome.response 200 text payload)
      db concurrent =
      { result := Except.ok { meaning := c.meaning }
        store := db ++ concurrent, providerCalls := 1 } := by
    unfold interpretEmoji
    simp only [beq_self_eq_true, if_true, hcreate, hfind]
  have hfetch : fetchEmojiMeaning emoji (HttpOutcome.response 200 text payload)
      db concurrent =
      { result := Except.error "An error occurred: UniqueViolationError"
        store := db ++ concurrent, providerCalls := 1 } := by
    unfold fetchEmojiMeaning
    rw [hmiss]
    simp only [hfield, hcreate]
    rw [if_pos (by omega)]
    rfl
  refine ⟨hinterp, ?_, hfetch, ?_⟩
  · rw [hinterp]; exact huniq
  · rw [hfetch]; exact huniq

/-- Witness for C1 amended: both racing variants run against a store where a
concurrent resolution already inserted the character. -/
theorem emoji_create_race_witness :
    interpretEmoji "e" (HttpOutcome.response 200 "" [("explanation", "grin")])
        [] [⟨1, "e", "cached"⟩] =
      { result := Except.ok { meaning := "cached" }
        store := [⟨1, "e", "cached"⟩], providerCalls := 1 } ∧
    ((interpretEmoji "e" (HttpOutcome.response 200 "" [("explanation", "grin")])
        [] [⟨1, "e", "cached"⟩]).store.filter
        (fun e => e.character == "e")).length = 1 ∧
    fetchEmojiMeaning "e" (HttpOutcome.response 200 "" [("explanation", "grin")])
        [] [⟨1, "e", "cached"⟩] =
      { result := Except.error "An error occurred: UniqueViolationError"
        store := [⟨1, "e", "cached"⟩], providerCalls := 1 } ∧
    ((fetchEmojiMeaning "e" (HttpOutcome.response 200 "" [("explanation", "grin")])
        [] [⟨1, "e", "cached"⟩]).store.filter
        (fun e => e.character == "e")).length = 1 :=
  emoji_create_race "e" "" "grin" [("explanation", "grin")] [] [⟨1, "e", "cached"⟩]
    ⟨1, "e", "cached"⟩ rfl rfl (by decide) rfl

/-- Counterexample for C3: `interpretEmoji` receiving a 200 response whose
payload is missing the expected `meaning` field — a malformed payload, one of
the remote-failure modes the claim covers — does not return a typed failure
and does not leave the table unchanged: it reports success with the
placeholder text and writes a placeholder Emoji record into the previously
empty store. -/
theorem interpretEmoji_placeholder_write :
    interpretEmoji "e" (HttpOutcome.response 200 "" []) [] [] =
      { result := Except.ok { meaning := "No interpretation found." }
        store := [⟨1, "e", "No interpretation found."⟩]
        providerCalls := 1 } ∧
    (interpretEmoji "e" (HttpOutcome.response 200 "" []) [] []).store ≠ [] := by
  refine ⟨rfl, fun h => ?_⟩
  rw [show (interpretEmoji "e" (HttpOutcome.response 200 "" []) [] []).store =
      [⟨1, "e", "No interpretation found."⟩] from rfl] at h
  exact List.noConfusion h

/-- C3 amended: on a remote failure in which the request raises or the
response has a non-success status, every variant writes no Emoji record and
leaves the table unchanged, and the failure is reported in each variant's own
way — `fetchEmojiMeaning` raises a `ValueError`, `explainEmoji` returns a
typed error field, `interpretEmoji` propagates a raised transport error and
returns a fixed failure message for non-200 statuses.  For a 200 response
whose payload misses the expected field, `fetchEmojiMeaning` still raises
without writing and `explainEmoji` still returns a typed error without
writing, but `interpretEmoji` treats it as success and stores a placeholder
record with meaning "No interpretation found.". -/
theorem remote_failure_no_write (emoji url msg text : String) (status : Nat)
    (payload : List (String × String)) (db : List Emoji)
    (hmiss : Emoji.findUnique db emoji = none)
    (hbad : status < 200 ∨ 300 ≤ status)
    (hnoexpl : lookupField payload "explanation" = none)
    (hnomean : lookupField payload "meaning" = none) :
    (fetchEmojiMeaning emoji (HttpOutcome.raised url msg) db []).result.isOk = false ∧
    (fetchEmojiMeaning emoji (HttpOutcome.raised url msg) db []).store = db ∧
    (fetchEmojiMeaning emoji (HttpOutcome.response status text payload) db []).result.isOk = false ∧
    (fetchEmojiMeaning emoji (HttpOutcome.response status text payload) db []).store = db ∧
    (fetchEmojiMeaning emoji (HttpOutcome.response 200 text payload) db []).result.isOk = false ∧
    (fetchEmojiMeaning emoji (HttpOutcome.response 200 text payload) db []).store = db ∧
    explainEmoji emoji (HttpOutcome.raised url msg) db [] =
      { result := Except.ok { meaning := "", error := some "Failed to connect to the GROQ server." }
        store := db, providerCalls := 1 } ∧
    explainEmoji emoji (HttpOutcome.response status text payload) db [] =
      { result := Except.ok { meaning := "", error := some "Invalid response from the server." }
        store := db, providerCalls := 1 } ∧
    explainEmoji emoji (HttpOutcome.response 200 text payload) db [] =
      { result := Except.ok { meaning := "", error := some "Meaning not found for the provided emoji." }
        store := db, providerCalls := 1 } ∧
    (interpretEmoji emoji (HttpOutcome.raised url msg) db []).result =
      Except.error ("RequestError: " ++ url ++ " - " ++ msg) ∧
    (interpretEmoji emoji (HttpOutcome.raised url msg) db []).store = db ∧
    interpretEmoji emoji (HttpOutcome.response status text payload) db [] =
      { result := Except.ok { meaning := "Failed to interpret the emoji." }
        store := db, providerCalls := 1 } ∧
    interpretEmoji emoji (HttpOutcome.response 200 text payload) db [] =
      { result := Except.ok { meaning := "No interpretation found." }
        store := db ++ [⟨db.length + 1, emoji, "No interpretation found."⟩]
        providerCalls := 1 } := by
  have hne : (status == 200) = false := by
    simp only [beq_eq_false_iff_ne, ne_eq]
    omega
  have hcond : ¬ (200 ≤ status ∧ status < 300) := by omega
  have hcreate : Emoji.create db emoji "No interpretation found." =
      Except.ok (⟨db.length + 1, emoji, "No interpretation found."⟩,
        db ++ [⟨db.length + 1, emoji, "No interpretation found."⟩]) := by
    unfold Emoji.create
    unfold Emoji.findUnique at hmiss
    rw [hmiss]
  refine ⟨?_, ?_, ?_, ?_, ?_, ?_, ?_, ?_, ?_, ?_, ?_, ?_, ?_⟩
  · simp [fetchEmojiMeaning, hmiss, Except.isOk, Except.toBool]
  · simp [fetchEmojiMeaning, hmiss]
  · simp [fetchEmojiMeaning, hmiss, hcond, Except.isOk, Except.toBool]
  · simp [fetchEmojiMeaning, hmiss, hcond]
  · simp [fetchEmojiMeaning, hmiss, hnoexpl, Except.isOk, Except.toBool]
  · simp [fetchEmojiMeaning, hmiss, hnoexpl]
  · simp [explainEmoji]
  · simp [explainEmoji, hcond]
  · simp [explainEmoji, hnomean]
  · simp [interpretEmoji]
  · simp [interpretEmoji]
  · simp [interpretEmoji, hne]
  · simp [interpretEmoji, hnomean, hcreate]

/-- Witness for C3 amended at a concrete character, store, and failing
provider outcomes. -/
theorem remote_failure_no_write_witness :
    (fetchEmojiMeaning "e" (HttpOutcome.raised "u" "t") [⟨1, "x", "m"⟩] []).result.isOk = false ∧
    (fetchEmojiMeaning "e" (HttpOutcome.raised "u" "t") [⟨1, "x", "m"⟩] []).store = [⟨1, "x", "m"⟩] ∧
    (fetchEmojiMeaning "e" (HttpOutcome.response 500 "boom" []) [⟨1, "x", "m"⟩] []).result.isOk = false ∧
    (fetchEmojiMeaning "e" (HttpOutcome.response 500 "boom" []) [⟨1, "x", "m"⟩] []).store = [⟨1, "x", "m"⟩] ∧
    (fetchEmojiMeaning "e" (HttpOutcome.response 200 "boom" []) [⟨1, "x", "m"⟩] []).result.isOk = false ∧
    (fetchEmojiMeaning "e" (HttpOutcome.response 200 "boom" []) [⟨1, "x", "m"⟩] []).store = [⟨1, "x", "m"⟩] ∧
    explainEmoji "e" (HttpOutcome.raised "u" "t") [⟨1, "x", "m"⟩] [] =
      { result := Except.ok { meaning := "", error := some "Failed to connect to the GROQ server." }
        store := [⟨1, "x", "m"⟩], providerCalls := 1 } ∧
    explainEmoji "e" (HttpOutcome.response 500 "boom" []) [⟨1, "x", "m"⟩] [] =
      { result := Except.ok { meaning := "", error := some "Invalid response from the server." }
        store := [⟨1, "x", "m"⟩], providerCalls := 1 } ∧
    explainEmoji "e" (HttpOutcome.response 200 "boom" []) [⟨1, "x", "m"⟩] [] =
      { result := Except.ok { meaning := "", error := some "Meaning not found for the provided emoji." }
        store := [⟨1, "x", "m"⟩], providerCalls := 1 } ∧
    (interpretEmoji "e" (HttpOutcome.raised "u" "t") [⟨1, "x", "m"⟩] []).result =
      Except.error ("RequestError: " ++ "u" ++ " - " ++ "t") ∧
    (interpretEmoji "e" (HttpOutcome.raised "u" "t") [⟨1, "x", "m"⟩] []).store = [⟨1, "x", "m"⟩] ∧
    interpretEmoji "e" (HttpOutcome.response 500 "boom" []) [⟨1, "x", "m"⟩] [] =
      { result := Except.ok { meaning := "Failed to interpret the emoji." }
        store := [⟨1, "x", "m"⟩], providerCalls := 1 } ∧
    interpretEmoji "e" (HttpOutcome.response 200 "boom" []) [⟨1, "x", "m"⟩] [] =
      { result := Except.ok { meaning := "No interpretation found." }
        store := [⟨1, "x", "m"⟩] ++ [⟨2, "e", "No interpretation found."⟩]
        providerCalls := 1 } :=
  remote_failure_no_write "e" "u" "t" "boom" 500 [] [⟨1, "x", "m"⟩]
    rfl (by omega) rfl rfl

/-- Counterexample for C4: `explainEmoji` on a successful provider response
returning meaning "m" stores nothing — the store that was empty before the
call is still empty afterwards, so no Emoji record with the returned meaning
was created, contradicting the claim that both store-bypassing variants
store the returned meaning on success. -/
theorem explainEmoji_success_stores_nothing :
    explainEmoji "e" (HttpOutcome.response 200 "" [("meaning", "m")]) [] [] =
      { result := Except.ok { meaning := "m", error := none }
        store := [], providerCalls := 1 } ∧
    ¬ ∃ r : Emoji, r ∈ (explainEmoji "e"
        (HttpOutcome.response 200 "" [("meaning", "m")]) [] []).store := by
  refine ⟨rfl, fun ⟨r, hr⟩ => ?_⟩
  rw [show (explainEmoji "e" (HttpOutcome.response 200 "" [("meaning", "m")])
      [] []).store = [] from rfl] at hr
  exact List.not_mem_nil r hr

/-- C4 amended: both store-bypassing variants call the provider directly on
every input — exactly one provider call regardless of what the store
contains, with no read-through — but only the interpret variant persists the
returned meaning on success (appending the new record when the character is
not yet stored); the explain variant returns the meaning and never writes to
the store on any outcome. -/
theorem bypass_variants_storage (emoji text m : String)
    (payload : List (String × String)) (db concurrent : List Emoji)
    (hm : lookupField payload "meaning" = some m)
    (hmiss : Emoji.findUnique (db ++ concurrent) emoji = none) :
    (∀ (outcome : HttpOutcome) (db0 conc0 : List Emoji),
      (interpretEmoji emoji outcome db0 conc0).providerCalls = 1) ∧
    (∀ (outcome : HttpOutcome) (db0 conc0 : List Emoji),
      (explainEmoji emoji outcome db0 conc0).providerCalls = 1) ∧
    interpretEmoji emoji (HttpOutcome.response 200 text payload) db concurrent =
      { result := Except.ok { meaning := m }
        store := (db ++ concurrent) ++
          [⟨(db ++ concurrent).length + 1, emoji, m⟩]
        providerCalls := 1 } ∧
    explainEmoji emoji (HttpOutcome.response 200 text payload) db concurrent =
      { result := Except.ok { meaning := m, error := none }
        store := db ++ concurrent, providerCalls := 1 } ∧
    (∀ (outcome : HttpOutcome) (db0 conc0 : List Emoji),
      (explainEmoji emoji outcome db0 conc0).store = db0 ++ conc0) := by
  have hcreate : Emoji.create (db ++ concurrent) emoji m =
      Except.ok (⟨(db ++ concurrent).length + 1, emoji, m⟩,
        (db ++ concurrent) ++ [⟨(db ++ concurrent).length + 1, emoji, m⟩]) := by
    unfold Emoji.create
    unfold Emoji.findUnique at hmiss
    rw [hmiss]
  refine ⟨?_, ?_, ?_, ?_, ?_⟩
  · intro outcome db0 conc0
    unfold interpretEmoji
    cases outcome with
    | raised u mm => rfl
    | response s t p =>
      by_cases hs : (s == 200) = true
      · simp only [hs, if_true]
        cases Emoji.create (db0 ++ conc0) emoji ((lookupField p "meaning").getD
            "No interpretation found.") with
        | ok v => rfl
        | error e =>
          cases Emoji.findUnique (db0 ++ conc0) emoji with
          | some entry => rfl
          | none => rfl
      · simp only [Bool.not_eq_true] at hs
        simp only [hs, Bool.false_eq_true, if_false]
  · intro outcome db0 conc0
    unfold explainEmoji
    cases outcome with
    | raised u mm => rfl
    | response s t p =>
      by_cases hs : 200 ≤ s ∧ s < 300
      · simp only [if_pos hs]
        cases lookupField p "meaning" with
        | some v => rfl
        | none => rfl
      · simp only [if_neg hs]
  · simp [interpretEmoji, hm, hcreate]
  · simp [explainEmoji, hm]
  · intro outcome db0 conc0
    unfold explainEmoji
    cases outcome with
    | raised u mm => rfl
    | response s t p =>
      by_cases hs : 200 ≤ s ∧ s < 300
      · simp only [if_pos hs]
        cases lookupField p "meaning" with
        | some v => rfl
        | none => rfl
      · simp only [if_neg hs]

/-- Witness for C4 amended: a fresh character resolved through both
store-bypassing variants with a successful provider response. -/
theorem bypass_variants_storage_witness :
    interpretEmoji "e" (HttpOutcome.response 200 "" [("meaning", "m")]) [] [] =
      { result := Except.ok { meaning := "m" }
        store := ([] ++ []) ++ [⟨(([] : List Emoji) ++ []).length + 1, "e", "m"⟩]
        providerCalls := 1 } ∧
    explainEmoji "e" (HttpOutcome.response 200 "" [("meaning", "m")]) [] [] =
      { result := Except.ok { meaning := "m", error := none }
        store := [] ++ [], providerCalls := 1 } :=
  ⟨(bypass_variants_storage "e" "" "m" [("meaning", "m")] [] [] rfl rfl).2.2.1,
   (bypass_variants_storage "e" "" "m" [("meaning", "m")] [] [] rfl rfl).2.2.2.1⟩
